import Mathlib

/-!
Verification of the automatic background-people-removal pipeline.

The development shallowly embeds the repository's services:
`foreground-separation` (scoring, partitioning, mask generation),
`person-detection` (primary SAM-2 adapter and the YOLO+SAM fallback chain),
`background-inpainting` (prioritized multi-model fallback), and
`auto-person-removal` (the pipeline orchestrator and its retry wrapper).

JavaScript numbers are modelled as real numbers; remote service calls are
modelled as oracle values describing the outcome the external world would
give for the one request the code issues (an exception is an `Except.error`
carrying the thrown message).  Instrumentation that the claims need —
which inpainting back-ends were attempted, how many times the inner
pipeline ran, which backoff delays were waited — is returned alongside the
values the source code returns.
-/

/-- A detected person instance, from `person-detection`:
`id`, `mask` (opaque encoded region), `bbox` = (x, y, width, height),
`confidence`, `centerPoint`, `area`. -/
structure PersonMask where
  id : String
  mask : String
  bboxX : ℝ
  bboxY : ℝ
  bboxW : ℝ
  bboxH : ℝ
  confidence : ℝ
  centerX : ℝ
  centerY : ℝ
  area : ℝ

/-- Result of a detection call: the person masks plus the image dimensions. -/
structure DetectionResult where
  masks : List PersonMask
  imageWidth : ℝ
  imageHeight : ℝ

/-- The five factor sub-scores of `ForegroundScore.factors`. -/
structure ScoreFactors where
  position : ℝ
  size : ℝ
  clarity : ℝ
  centrality : ℝ
  orientation : ℝ

/-- Foreground desirability score of one person (`foreground-separation`). -/
structure ForegroundScore where
  personId : String
  score : ℝ
  factors : ScoreFactors

/-- Result of foreground/background separation. -/
structure SeparationResult where
  foregroundMasks : List PersonMask
  backgroundMasks : List PersonMask
  foregroundMask : String
  backgroundMask : String

noncomputable section

/-- `calculatePositionScore`: bbox center distance to the image center,
normalized by the center-to-corner distance, fed through `100*exp(-3*d)`,
clamped below at 0. -/
def calculatePositionScore (person : PersonMask) (imageWidth imageHeight : ℝ) : ℝ :=
  let centerX := person.bboxX + person.bboxW / 2
  let centerY := person.bboxY + person.bboxH / 2
  let imageCenterX := imageWidth / 2
  let imageCenterY := imageHeight / 2
  let distance := Real.sqrt ((centerX - imageCenterX) ^ 2 + (centerY - imageCenterY) ^ 2)
  let maxDistance := Real.sqrt ((imageWidth / 2) ^ 2 + (imageHeight / 2) ^ 2)
  let normalizedDistance := distance / maxDistance
  max 0 (100 * Real.exp (-3 * normalizedDistance))

/-- `calculateSizeScore`: piecewise on the bbox-area / image-area ratio with
ideal band [0.05, 0.40]. -/
def calculateSizeScore (person : PersonMask) (imageWidth imageHeight : ℝ) : ℝ :=
  let personArea := person.bboxW * person.bboxH
  let imageArea := imageWidth * imageHeight
  let areaRatio := personArea / imageArea
  if areaRatio < 0.05 then
    (areaRatio / 0.05) * 60
  else if areaRatio > 0.40 then
    let excessRatio := (areaRatio - 0.40) / (0.8 - 0.40)
    max 20 (100 * (1 - excessRatio))
  else
    100

/-- `calculateCentralityScore`: distance of the declared `centerPoint` to the
image center, normalized, fed through the Gaussian `100*exp(-2*d^2)`. -/
def calculateCentralityScore (person : PersonMask) (imageWidth imageHeight : ℝ) : ℝ :=
  let imageCenterX := imageWidth / 2
  let imageCenterY := imageHeight / 2
  let distance :=
    Real.sqrt ((person.centerX - imageCenterX) ^ 2 + (person.centerY - imageCenterY) ^ 2)
  let maxDistance := Real.sqrt ((imageWidth / 2) ^ 2 + (imageHeight / 2) ^ 2)
  let normalizedDistance := distance / maxDistance
  max 0 (100 * Real.exp (-2 * normalizedDistance ^ 2))

/-- `calculateOrientationScore`: base 50, +30 when the bbox center is in the
lower 70% of the image, +20 when horizontally in the central 60%, capped at
100. -/
def calculateOrientationScore (person : PersonMask) (imageWidth imageHeight : ℝ) : ℝ :=
  let centerX := person.bboxX + person.bboxW / 2
  let centerY := person.bboxY + person.bboxH / 2
  let score : ℝ := 50
  let score := if centerY > imageHeight * 0.3 then score + 30 else score
  let score := if centerX > imageWidth * 0.2 ∧ centerX < imageWidth * 0.8 then score + 20 else score
  min 100 score

/-- `calculateClarityScore`: `min(100, 70 + confidence * 30)`. -/
def calculateClarityScore (person : PersonMask) : ℝ :=
  min 100 (70 + person.confidence * 30)

/-- `calculateForegroundScore`: weighted sum of the five factors
(position 0.30, size 0.25, centrality 0.20, orientation 0.15, clarity 0.10),
clamped to [0, 100]. -/
def calculateForegroundScore (person : PersonMask) (imageWidth imageHeight : ℝ) :
    ForegroundScore :=
  let positionScore := calculatePositionScore person imageWidth imageHeight
  let sizeScore := calculateSizeScore person imageWidth imageHeight
  let centralityScore := calculateCentralityScore person imageWidth imageHeight
  let orientationScore := calculateOrientationScore person imageWidth imageHeight
  let clarityScore := calculateClarityScore person
  let finalScore :=
    positionScore * 0.30 + sizeScore * 0.25 + centralityScore * 0.20 +
      orientationScore * 0.15 + clarityScore * 0.10
  { personId := person.id
    score := max 0 (min 100 finalScore)
    factors :=
      { position := positionScore
        size := sizeScore
        clarity := clarityScore
        centrality := centralityScore
        orientation := orientationScore } }

/-- Descending order on scores: `a` comes before `b` when `b.score <= a.score`
(the JS comparator `(a, b) => b.score - a.score`). -/
def byScoreDesc (a b : ForegroundScore) : Prop := b.score ≤ a.score

instance : DecidableRel byScoreDesc := fun a b => Real.decidableLE _ _

/-- `combineMasks`: placeholder merge returning the first mask's region, `""`
on an empty partition. -/
def combineMasks (masks : List PersonMask) : String :=
  match masks with
  | [] => ""
  | m :: _ => m.mask

/-- `separateForegroundBackground`: score every mask, sort descending by
score, keep the top `min(targetForegroundCount, count)` ids as foreground,
the rest as background. -/
def separateForegroundBackground (detectionResult : DetectionResult)
    (targetForegroundCount : ℕ) : SeparationResult :=
  let masks := detectionResult.masks
  if masks.length = 0 then
    { foregroundMasks := [], backgroundMasks := [], foregroundMask := "", backgroundMask := "" }
  else
    let scores := masks.map fun m =>
      calculateForegroundScore m detectionResult.imageWidth detectionResult.imageHeight
    let sorted := List.insertionSort byScoreDesc scores
    let foregroundCount := min targetForegroundCount scores.length
    let foregroundIds := (sorted.take foregroundCount).map ForegroundScore.personId
    let foregroundMasks := masks.filter fun m => m.id ∈ foregroundIds
    let backgroundMasks := masks.filter fun m => m.id ∉ foregroundIds
    { foregroundMasks := foregroundMasks
      backgroundMasks := backgroundMasks
      foregroundMask := combineMasks foregroundMasks
      backgroundMask := combineMasks backgroundMasks }

/-- `generateInpaintingMask`: `""` for an empty background set, else the first
background mask's region (placeholder merge, as in the source). -/
def generateInpaintingMask (backgroundMasks : List PersonMask)
    (imageWidth imageHeight : ℝ) : String :=
  match backgroundMasks with
  | [] => ""
  | m :: _ => m.mask

/-- JS `x || d` for an optional string field: `undefined` and `""` are falsy. -/
def jsStrOr (v : Option String) (d : String) : String :=
  match v with
  | none => d
  | some s => if s = "" then d else s

/-- JS `x || d` for an optional numeric field: `undefined` and `0` are falsy. -/
def jsNumOr (v : Option ℝ) (d : ℝ) : ℝ :=
  match v with
  | none => d
  | some x => if x = 0 then d else x

/-- One raw item of the SAM-2 output: optional mask, bbox and confidence. -/
structure SamItem where
  mask : Option String
  bbox : Option (ℝ × ℝ × ℝ × ℝ)
  confidence : Option ℝ

/-- Conversion of raw SAM-2 items to `PersonMask`s, with the source defaults
(`bbox` default `[0,0,100,100]`, `mask` default `""`, `confidence` default
`0.8`) and ids `person_<index>`. -/
def samMasks : List SamItem → ℕ → List PersonMask
  | [], _ => []
  | item :: rest, index =>
    let bbox := item.bbox.getD (0, 0, 100, 100)
    { id := "person_" ++ toString index
      mask := jsStrOr item.mask ""
      bboxX := bbox.1
      bboxY := bbox.2.1
      bboxW := bbox.2.2.1
      bboxH := bbox.2.2.2
      confidence := jsNumOr item.confidence 0.8
      centerX := bbox.1 + bbox.2.2.1 / 2
      centerY := bbox.2.1 + bbox.2.2.2 / 2
      area := bbox.2.2.1 * bbox.2.2.2 } :: samMasks rest (index + 1)

/-- `detectPeopleInImage`: run the SAM-2 call (an oracle: `.error` is a
thrown/rejected call, `.ok none` an output that is not a valid array),
convert the items, drop detections with confidence not above 0.5, report
fixed 1024x1024 dimensions; any fault is rethrown with the
`Failed to detect people:` prefix. -/
def detectPeopleInImage (samCall : Except String (Option (List SamItem))) :
    Except String DetectionResult :=
  match samCall with
  | .error e => .error ("Failed to detect people: " ++ e)
  | .ok none => .error ("Failed to detect people: " ++ "SAM-2 API did not return valid output")
  | .ok (some items) =>
    let masks := samMasks items 0
    let filteredMasks := masks.filter fun m => 0.5 < m.confidence
    .ok { masks := filteredMasks, imageWidth := 1024, imageHeight := 1024 }

/-- One YOLO detection: optional bbox and confidence. -/
structure YoloDet where
  bbox : Option (ℝ × ℝ × ℝ × ℝ)
  confidence : Option ℝ

/-- Per-box SAM refinement loop of `detectPeopleWithYOLO`: the refinement
oracle is indexed by the loop counter; `.error` is a thrown call (fatal for
the whole chain), `.ok none` or `.ok (some "")` a falsy mask (the box is
skipped). -/
def yoloLoop (refineCall : ℕ → Except String (Option String)) :
    List YoloDet → ℕ → Except String (List PersonMask)
  | [], _ => .ok []
  | det :: rest, i =>
    let bbox := det.bbox.getD (0, 0, 100, 100)
    match refineCall i with
    | .error e => .error e
    | .ok none => yoloLoop refineCall rest (i + 1)
    | .ok (some s) =>
      if s = "" then
        yoloLoop refineCall rest (i + 1)
      else
        match yoloLoop refineCall rest (i + 1) with
        | .error e => .error e
        | .ok masks =>
          .ok ({ id := "person_" ++ toString i
                 mask := s
                 bboxX := bbox.1
                 bboxY := bbox.2.1
                 bboxW := bbox.2.2.1
                 bboxH := bbox.2.2.2
                 confidence := jsNumOr det.confidence 0.8
                 centerX := bbox.1 + bbox.2.2.1 / 2
                 centerY := bbox.2.1 + bbox.2.2.2 / 2
                 area := bbox.2.2.1 * bbox.2.2.2 } :: masks)

/-- `detectPeopleWithYOLO`: YOLO boxes (an oracle), then a SAM refinement per
box; faults are rethrown with the `Failed to detect people with YOLO + SAM:`
prefix. -/
def detectPeopleWithYOLO (yoloCall : Except String (Option (List YoloDet)))
    (refineCall : ℕ → Except String (Option String)) : Except String DetectionResult :=
  match yoloCall with
  | .error e => .error ("Failed to detect people with YOLO + SAM: " ++ e)
  | .ok none =>
    .error ("Failed to detect people with YOLO + SAM: " ++ "YOLO API did not return valid output")
  | .ok (some dets) =>
    match yoloLoop refineCall dets 0 with
    | .error e => .error ("Failed to detect people with YOLO + SAM: " ++ e)
    | .ok masks => .ok { masks := masks, imageWidth := 1024, imageHeight := 1024 }

end

/-- Output of one inpainting back-end (`background-inpainting`). -/
structure InpaintingResult where
  resultUrl : String
  processingTime : ℕ
  modelUsed : String
deriving DecidableEq

/-- Outcomes of the three inpainting back-ends' remote calls for the request
at hand: `.error` is a thrown call, `.ok none` an output that is not a valid
array, `.ok us` the returned list of urls. -/
structure InpaintWorld where
  stability : Except String (Option (List String))
  runwayml : Except String (Option (List String))
  flux : Except String (Option (List String))

/-- `inpaintWithStabilityAI`: first returned url on success; an invalid or
empty output, or a thrown call, is rethrown with the
`Failed to inpaint with Stability AI:` prefix. -/
def inpaintWithStabilityAI (call : Except String (Option (List String)))
    (elapsedMs : ℕ) (imageUrl maskUrl prompt : String) : Except String InpaintingResult :=
  match call with
  | .error e => .error ("Failed to inpaint with Stability AI: " ++ e)
  | .ok none =>
    .error ("Failed to inpaint with Stability AI: " ++
      "Stability AI inpainting did not return valid output")
  | .ok (some []) =>
    .error ("Failed to inpaint with Stability AI: " ++
      "Stability AI inpainting did not return valid output")
  | .ok (some (u :: _)) =>
    .ok { resultUrl := u, processingTime := elapsedMs,
          modelUsed := "stability-ai/stable-diffusion-inpainting" }

/-- `inpaintWithRunwayML`, analogous to `inpaintWithStabilityAI`. -/
def inpaintWithRunwayML (call : Except String (Option (List String)))
    (elapsedMs : ℕ) (imageUrl maskUrl prompt : String) : Except String InpaintingResult :=
  match call with
  | .error e => .error ("Failed to inpaint with RunwayML: " ++ e)
  | .ok none =>
    .error ("Failed to inpaint with RunwayML: " ++
      "RunwayML inpainting did not return valid output")
  | .ok (some []) =>
    .error ("Failed to inpaint with RunwayML: " ++
      "RunwayML inpainting did not return valid output")
  | .ok (some (u :: _)) =>
    .ok { resultUrl := u, processingTime := elapsedMs,
          modelUsed := "runwayml/stable-diffusion-inpainting" }

/-- `inpaintWithFLUX`, analogous to `inpaintWithStabilityAI`. -/
def inpaintWithFLUX (call : Except String (Option (List String)))
    (elapsedMs : ℕ) (imageUrl maskUrl prompt : String) : Except String InpaintingResult :=
  match call with
  | .error e => .error ("Failed to inpaint with FLUX: " ++ e)
  | .ok none =>
    .error ("Failed to inpaint with FLUX: " ++ "FLUX inpainting did not return valid output")
  | .ok (some []) =>
    .error ("Failed to inpaint with FLUX: " ++ "FLUX inpainting did not return valid output")
  | .ok (some (u :: _)) =>
    .ok { resultUrl := u, processingTime := elapsedMs,
          modelUsed := "black-forest-labs/flux-kontext-dev" }

/-- The ordered fallback loop of `smartInpainting` over the priority list
`[stability, runwayml, flux]` (the for-loop unrolled over that fixed list);
`tr` is the trace of back-ends already attempted in the preferred-model
phase.  Returns the result together with the full attempt trace. -/
def tryChain (w : InpaintWorld) (elapsedMs : ℕ) (imageUrl maskUrl prompt : String)
    (tr : List String) : Except String InpaintingResult × List String :=
  match inpaintWithStabilityAI w.stability elapsedMs imageUrl maskUrl prompt with
  | .ok r => (.ok r, tr ++ ["stability"])
  | .error _ =>
    match inpaintWithRunwayML w.runwayml elapsedMs imageUrl maskUrl prompt with
    | .ok r => (.ok r, tr ++ ["stability", "runwayml"])
    | .error _ =>
      match inpaintWithFLUX w.flux elapsedMs imageUrl maskUrl prompt with
      | .ok r => (.ok r, tr ++ ["stability", "runwayml", "flux"])
      | .error _ =>
        (.error "All inpainting models failed", tr ++ ["stability", "runwayml", "flux"])

/-- `smartInpainting`: attempt the preferred model first when it names a
known back-end (an unknown name is only logged); on its failure — or with no
usable preference — run the ordered fallback list from its beginning.  The
second component is the instrumented trace of attempted back-end names. -/
def smartInpainting (w : InpaintWorld) (elapsedMs : ℕ)
    (imageUrl maskUrl prompt : String) (preferredModel : Option String) :
    Except String InpaintingResult × List String :=
  match preferredModel with
  | some "stability" =>
    match inpaintWithStabilityAI w.stability elapsedMs imageUrl maskUrl prompt with
    | .ok r => (.ok r, ["stability"])
    | .error _ => tryChain w elapsedMs imageUrl maskUrl prompt ["stability"]
  | some "runwayml" =>
    match inpaintWithRunwayML w.runwayml elapsedMs imageUrl maskUrl prompt with
    | .ok r => (.ok r, ["runwayml"])
    | .error _ => tryChain w elapsedMs imageUrl maskUrl prompt ["runwayml"]
  | some "flux" =>
    match inpaintWithFLUX w.flux elapsedMs imageUrl maskUrl prompt with
    | .ok r => (.ok r, ["flux"])
    | .error _ => tryChain w elapsedMs imageUrl maskUrl prompt ["flux"]
  | _ => tryChain w elapsedMs imageUrl maskUrl prompt []

/-- JS `String.prototype.includes` (substring containment). -/
def jsIncludes (s pat : String) : Bool :=
  String.containsSubstr s pat.toSubstring

/-- `generateOptimizedPrompt`: base prompt (default
`natural background, seamless, high quality`), context-dependent additions,
then generic quality keywords. -/
def generateOptimizedPrompt (originalPrompt imageContext : Option String) : String :=
  let basePrompt := jsStrOr originalPrompt "natural background, seamless, high quality"
  let optimizedPrompt := basePrompt
  let optimizedPrompt :=
    match imageContext with
    | none => optimizedPrompt
    | some ctx =>
      if ctx = "" then optimizedPrompt
      else if jsIncludes ctx "outdoor" || jsIncludes ctx "nature" then
        optimizedPrompt ++ ", outdoor, natural lighting, environmental context"
      else if jsIncludes ctx "indoor" || jsIncludes ctx "room" then
        optimizedPrompt ++ ", indoor, architectural, room context"
      else optimizedPrompt
  optimizedPrompt ++ ", professional photography, high resolution, detailed"

/-- `validateInpaintingResult`: stubbed quality check, always `true`. -/
def validateInpaintingResult (resultUrl originalImageUrl maskUrl : String) : Bool :=
  true

/-- `details` of a `PersonRemovalResult`. -/
structure RemovalDetails where
  peopleDetected : ℕ
  foregroundPeople : ℕ
  backgroundPeople : ℕ
  modelUsed : String
  inpaintingModel : String
deriving DecidableEq

/-- Terminal output of the pipeline (`auto-person-removal`). -/
structure PersonRemovalResult where
  success : Bool
  resultUrl : Option String
  processingTime : ℕ
  details : RemovalDetails
  error : Option String
deriving DecidableEq

/-- Pipeline options with their source defaults (`targetForegroundCount` 1,
`fallbackToYOLO` true, `maxRetries` 2). -/
structure PersonRemovalOptions where
  targetForegroundCount : Option ℕ
  preferredInpaintingModel : Option String
  customPrompt : Option String
  fallbackToYOLO : Option Bool
  maxRetries : Option ℤ

/-- Outcomes of every remote call one run of the pipeline can issue. -/
structure PipelineWorld where
  samCall : Except String (Option (List SamItem))
  yoloCall : Except String (Option (List YoloDet))
  refineCall : ℕ → Except String (Option String)
  inpaint : InpaintWorld

/-- The all-zero failure `details` used on every failure path. -/
def zeroDetails : RemovalDetails :=
  { peopleDetected := 0, foregroundPeople := 0, backgroundPeople := 0,
    modelUsed := "none", inpaintingModel := "none" }

/-- The result assembled in the orchestrator's catch-all handler. -/
def mkFailureResult (elapsedMs : ℕ) (e : String) : PersonRemovalResult :=
  { success := false, resultUrl := none, processingTime := elapsedMs,
    details := zeroDetails, error := some e }

/-- The result the retry wrapper returns for the outcome of one attempt:
a successful or non-success inner result is returned as is, a thrown error
is converted to the failure result built in the wrapper's catch branch. -/
def attemptOutcome (run : ℤ → Except String PersonRemovalResult) (a : ℤ) :
    PersonRemovalResult :=
  match run a with
  | .ok r => r
  | .error e =>
    { success := false, resultUrl := none, processingTime := 0,
      details := zeroDetails, error := some e }

noncomputable section

/-- Step 1 of the orchestrator: primary detection, falling back to the
YOLO + SAM chain when `fallbackToYOLO` is set; when both fail the error is
`Both SAM-2 and YOLO detection failed:` plus the primary error's message,
and without fallback the primary error is rethrown. -/
def detectPhase (w : PipelineWorld) (fallbackToYOLO : Bool) : Except String DetectionResult :=
  match detectPeopleInImage w.samCall with
  | .ok d => .ok d
  | .error e =>
    if fallbackToYOLO then
      match detectPeopleWithYOLO w.yoloCall w.refineCall with
      | .ok d => .ok d
      | .error _ => .error ("Both SAM-2 and YOLO detection failed: " ++ e)
    else
      .error e

/-- `autoRemoveBackgroundPeople`: the orchestrator.  `elapsedMs` stands for
the `Date.now() - startTime` value observed at the return point.  The second
component is the trace of inpainting back-ends attempted (empty when the
inpainting stage is never reached). -/
def autoRemoveBackgroundPeople (w : PipelineWorld) (elapsedMs : ℕ) (imageUrl : String)
    (options : PersonRemovalOptions) : PersonRemovalResult × List String :=
  let targetForegroundCount := options.targetForegroundCount.getD 1
  let fallbackToYOLO := options.fallbackToYOLO.getD true
  match detectPhase w fallbackToYOLO with
  | .error e => (mkFailureResult elapsedMs e, [])
  | .ok detectionResult =>
    if detectionResult.masks.length = 0 then
      ({ success := false, resultUrl := none, processingTime := elapsedMs,
         details := zeroDetails, error := some "No people detected in the image" }, [])
    else
      let separationResult := separateForegroundBackground detectionResult targetForegroundCount
      if separationResult.backgroundMasks.length = 0 then
        ({ success := true, resultUrl := some imageUrl, processingTime := elapsedMs,
           details :=
             { peopleDetected := detectionResult.masks.length
               foregroundPeople := separationResult.foregroundMasks.length
               backgroundPeople := 0
               modelUsed := "SAM-2/YOLO"
               inpaintingModel := "none" },
           error := none }, [])
      else
        let inpaintingMask := generateInpaintingMask separationResult.backgroundMasks
          detectionResult.imageWidth detectionResult.imageHeight
        if inpaintingMask = "" then
          (mkFailureResult elapsedMs "Failed to generate inpainting mask", [])
        else
          let optimizedPrompt := generateOptimizedPrompt options.customPrompt (some "outdoor")
          match smartInpainting w.inpaint elapsedMs imageUrl inpaintingMask optimizedPrompt
              options.preferredInpaintingModel with
          | (.error e, tr) => (mkFailureResult elapsedMs e, tr)
          | (.ok inpaintingResult, tr) =>
            if validateInpaintingResult inpaintingResult.resultUrl imageUrl inpaintingMask
                = false then
              (mkFailureResult elapsedMs "Inpainting result validation failed", tr)
            else
              ({ success := true, resultUrl := some inpaintingResult.resultUrl,
                 processingTime := elapsedMs,
                 details :=
                   { peopleDetected := detectionResult.masks.length
                     foregroundPeople := separationResult.foregroundMasks.length
                     backgroundPeople := separationResult.backgroundMasks.length
                     modelUsed := "SAM-2/YOLO"
                     inpaintingModel := inpaintingResult.modelUsed },
                 error := none }, tr)

end

/-- Exponential-backoff delay computed after a failed `attempt`:
`min(1000 * 2^(attempt-1), 5000)` milliseconds. -/
def backoffDelay (attempt : ℤ) : ℕ :=
  min (1000 * 2 ^ (attempt - 1).toNat) 5000

/-- The retry loop of `autoRemoveBackgroundPeopleWithRetry`.  `run a` is the
outcome of `await autoRemoveBackgroundPeople(imageUrl, options)` on attempt
`a` (`.error` is a rejected promise); `fuel` counts the loop iterations still
permitted (`maxRetries - attempt + 1`, clamped at 0).  Returns the final
result, the number of inner invocations performed, and the backoff delays
waited, in order. -/
def retryGo (run : ℤ → Except String PersonRemovalResult) (maxRetries : ℤ) :
    ℕ → ℤ → ℕ → List ℕ → PersonRemovalResult × ℕ × List ℕ
  | 0, _, invocations, delays =>
    ({ success := false, resultUrl := none, processingTime := 0,
       details := zeroDetails, error := some "Max retries exceeded" }, invocations, delays)
  | fuel + 1, attempt, invocations, delays =>
    match run attempt with
    | .ok result =>
      if result.success then
        (result, invocations + 1, delays)
      else if attempt = maxRetries then
        (result, invocations + 1, delays)
      else
        retryGo run maxRetries fuel (attempt + 1) (invocations + 1)
          (delays ++ [backoffDelay attempt])
    | .error e =>
      if attempt = maxRetries then
        ({ success := false, resultUrl := none, processingTime := 0,
           details := zeroDetails, error := some e }, invocations + 1, delays)
      else
        retryGo run maxRetries fuel (attempt + 1) (invocations + 1)
          (delays ++ [backoffDelay attempt])

/-- `autoRemoveBackgroundPeopleWithRetry`: run the whole pipeline up to
`maxRetries` (default 2) times, starting at attempt 1. -/
def autoRemoveBackgroundPeopleWithRetry (run : ℤ → Except String PersonRemovalResult)
    (options : PersonRemovalOptions) : PersonRemovalResult × ℕ × List ℕ :=
  let maxRetries := options.maxRetries.getD 2
  retryGo run maxRetries maxRetries.toNat 1 0 []


/-- Options `{}`: every field left to its default. -/
def emptyOptions : PersonRemovalOptions :=
  { targetForegroundCount := none, preferredInpaintingModel := none, customPrompt := none,
    fallbackToYOLO := none, maxRetries := none }

noncomputable section

/-- The `PersonMask` produced for a raw detection with bbox `[0,0,100,100]`,
mask `"m1"` and defaulted confidence. -/
def primaryMask : PersonMask :=
  { id := "person_0", mask := "m1", bboxX := 0, bboxY := 0, bboxW := 100, bboxH := 100,
    confidence := 0.8, centerX := 50, centerY := 50, area := 10000 }

/-- Same geometry, mask `"m2"` (the refined mask of the fallback chain). -/
def fallbackMask : PersonMask :=
  { id := "person_0", mask := "m2", bboxX := 0, bboxY := 0, bboxW := 100, bboxH := 100,
    confidence := 0.8, centerX := 50, centerY := 50, area := 10000 }

/-- A raw SAM-2 item with bbox `[0,0,100,100]`, mask `"m1"`, no confidence. -/
def samItem1 : SamItem :=
  { mask := some "m1", bbox := some (0, 0, 100, 100), confidence := none }

/-- A raw YOLO detection with bbox `[0,0,100,100]` and no confidence. -/
def yoloDet1 : YoloDet :=
  { bbox := some (0, 0, 100, 100), confidence := none }

/-- An inpainting world in which every back-end fails (never reached in the
scenarios below). -/
def deadInpaint : InpaintWorld :=
  { stability := .error "unused", runwayml := .error "unused", flux := .error "unused" }

/-- A world in which the primary detector succeeds with exactly one person. -/
def primaryWorld : PipelineWorld :=
  { samCall := .ok (some [samItem1])
    yoloCall := .error "unused"
    refineCall := fun _ => .error "unused"
    inpaint := deadInpaint }

/-- A world in which the primary detector throws and the YOLO + SAM fallback
chain succeeds with exactly one box and one refined mask. -/
def fallbackWorld : PipelineWorld :=
  { samCall := .error "boom"
    yoloCall := .ok (some [yoloDet1])
    refineCall := fun _ => .ok (some "m2")
    inpaint := deadInpaint }

end

/-- A non-success pipeline result used to exercise the retry wrapper. -/
def failedResult : PersonRemovalResult :=
  { success := false, resultUrl := none, processingTime := 3,
    details := zeroDetails, error := some "nope" }

/-- An inner pipeline that fails (without throwing) on every attempt. -/
def alwaysFailRun : ℤ → Except String PersonRemovalResult := fun _ => .ok failedResult

/-- Options with `maxRetries = 2` and everything else left out. -/
def twoRetryOptions : PersonRemovalOptions :=
  { targetForegroundCount := none, preferredInpaintingModel := none, customPrompt := none,
    fallbackToYOLO := none, maxRetries := some 2 }

/-- Options with `maxRetries = 0` and everything else left out. -/
def zeroRetryOptions : PersonRemovalOptions :=
  { targetForegroundCount := none, preferredInpaintingModel := none, customPrompt := none,
    fallbackToYOLO := none, maxRetries := some 0 }

/-- Options with `fallbackToYOLO = false` and everything else left out. -/
def noFallbackOptions : PersonRemovalOptions :=
  { targetForegroundCount := none, preferredInpaintingModel := none, customPrompt := none,
    fallbackToYOLO := some false, maxRetries := none }

noncomputable section

/-- A world in which every remote call throws. -/
def failWorld : PipelineWorld :=
  { samCall := .error "x", yoloCall := .error "y", refineCall := fun _ => .error "z",
    inpaint := deadInpaint }

/-- A person with confidence 1/2 whose bbox [100,100,200,400] lies inside a
1000x1000 image. -/
def c4person : PersonMask :=
  { id := "p", mask := "m", bboxX := 100, bboxY := 100, bboxW := 200, bboxH := 400,
    confidence := 0.5, centerX := 200, centerY := 300, area := 80000 }

/-- A person centered on a 1000x1000 image holding 20% of its area. -/
def c5centered : PersonMask :=
  { id := "a", mask := "ma", bboxX := 250, bboxY := 300, bboxW := 500, bboxH := 400,
    confidence := 0.9, centerX := 500, centerY := 500, area := 200000 }

/-- A person whose bbox center sits on the image corner (0,0), holding 2%
of the area of a 1000x1000 image. -/
def c5corner : PersonMask :=
  { id := "b", mask := "mb", bboxX := -100, bboxY := -50, bboxW := 200, bboxH := 100,
    confidence := 0.8, centerX := 0, centerY := 0, area := 20000 }

end

/-! ## Bounds of the scoring engine -/

theorem max_exp_le {t : ℝ} (ht : t ≤ 0) : max 0 (100 * Real.exp t) ≤ 100 :=
  max_le (by norm_num) (by nlinarith [Real.exp_le_one_iff.mpr ht, Real.exp_pos t])

theorem calculatePositionScore_nonneg (p : PersonMask) (W H : ℝ) :
    0 ≤ calculatePositionScore p W H :=
  le_max_left _ _

theorem calculatePositionScore_le (p : PersonMask) (W H : ℝ) :
    calculatePositionScore p W H ≤ 100 := by
  unfold calculatePositionScore
  apply max_exp_le
  have hnd : 0 ≤ Real.sqrt ((p.bboxX + p.bboxW / 2 - W / 2) ^ 2 +
      (p.bboxY + p.bboxH / 2 - H / 2) ^ 2) / Real.sqrt ((W / 2) ^ 2 + (H / 2) ^ 2) :=
    div_nonneg (Real.sqrt_nonneg _) (Real.sqrt_nonneg _)
  nlinarith

theorem calculateCentralityScore_nonneg (p : PersonMask) (W H : ℝ) :
    0 ≤ calculateCentralityScore p W H :=
  le_max_left _ _

theorem calculateCentralityScore_le (p : PersonMask) (W H : ℝ) :
    calculateCentralityScore p W H ≤ 100 := by
  unfold calculateCentralityScore
  apply max_exp_le
  have hsq : 0 ≤ (Real.sqrt ((p.centerX - W / 2) ^ 2 + (p.centerY - H / 2) ^ 2) /
      Real.sqrt ((W / 2) ^ 2 + (H / 2) ^ 2)) ^ 2 := sq_nonneg _
  nlinarith

theorem calculateSizeScore_nonneg (p : PersonMask) (W H : ℝ)
    (hr : 0 ≤ p.bboxW * p.bboxH / (W * H)) : 0 ≤ calculateSizeScore p W H := by
  unfold calculateSizeScore
  dsimp only
  split_ifs with h1 h2
  · have := div_nonneg hr (by norm_num : (0:ℝ) ≤ 0.05)
    nlinarith
  · exact le_trans (by norm_num) (le_max_left 20 _)
  · norm_num

theorem calculateSizeScore_le (p : PersonMask) (W H : ℝ) :
    calculateSizeScore p W H ≤ 100 := by
  unfold calculateSizeScore
  dsimp only
  split_ifs with h1 h2
  · have e : p.bboxW * p.bboxH / (W * H) / 5e-2 * 60 = p.bboxW * p.bboxH / (W * H) * 1200 := by
      rw [div_eq_mul_inv]
      norm_num
      ring
    rw [e]
    nlinarith
  · apply max_le (by norm_num)
    have : 0 ≤ (p.bboxW * p.bboxH / (W * H) - 0.40) / (0.8 - 0.40) := by
      apply div_nonneg _ (by norm_num)
      nlinarith
    nlinarith
  · norm_num

theorem calculateOrientationScore_ge (p : PersonMask) (W H : ℝ) :
    50 ≤ calculateOrientationScore p W H := by
  unfold calculateOrientationScore
  dsimp only
  split_ifs <;> simp [le_min_iff] <;> norm_num

theorem calculateOrientationScore_le (p : PersonMask) (W H : ℝ) :
    calculateOrientationScore p W H ≤ 100 := by
  unfold calculateOrientationScore
  dsimp only
  split_ifs <;> exact min_le_left _ _

theorem calculateClarityScore_ge (p : PersonMask) (hc : 0 ≤ p.confidence) :
    70 ≤ calculateClarityScore p := by
  unfold calculateClarityScore
  apply le_min (by norm_num)
  nlinarith

theorem calculateClarityScore_le (p : PersonMask) : calculateClarityScore p ≤ 100 :=
  min_le_left _ _

/-- C4: for a person whose confidence lies in [0,1] and whose bbox lies
within the positive image bounds, the final score and all five factor
sub-scores of `calculateForegroundScore` lie in [0,100]. -/
theorem calculateForegroundScore_bounds (person : PersonMask) (W H : ℝ)
    (hW : 0 < W) (hH : 0 < H)
    (hc0 : 0 ≤ person.confidence) (hc1 : person.confidence ≤ 1)
    (hx : 0 ≤ person.bboxX) (hy : 0 ≤ person.bboxY)
    (hw : 0 ≤ person.bboxW) (hh : 0 ≤ person.bboxH)
    (hxw : person.bboxX + person.bboxW ≤ W) (hyh : person.bboxY + person.bboxH ≤ H) :
    (0 ≤ (calculateForegroundScore person W H).score ∧
      (calculateForegroundScore person W H).score ≤ 100) ∧
    (0 ≤ (calculateForegroundScore person W H).factors.position ∧
      (calculateForegroundScore person W H).factors.position ≤ 100) ∧
    (0 ≤ (calculateForegroundScore person W H).factors.size ∧
      (calculateForegroundScore person W H).factors.size ≤ 100) ∧
    (0 ≤ (calculateForegroundScore person W H).factors.clarity ∧
      (calculateForegroundScore person W H).factors.clarity ≤ 100) ∧
    (0 ≤ (calculateForegroundScore person W H).factors.centrality ∧
      (calculateForegroundScore person W H).factors.centrality ≤ 100) ∧
    (0 ≤ (calculateForegroundScore person W H).factors.orientation ∧
      (calculateForegroundScore person W H).factors.orientation ≤ 100) := by
  have hr : 0 ≤ person.bboxW * person.bboxH / (W * H) :=
    div_nonneg (mul_nonneg hw hh) (mul_nonneg hW.le hH.le)
  refine ⟨⟨le_max_left _ _, max_le (by norm_num) (min_le_left _ _)⟩,
    ⟨calculatePositionScore_nonneg person W H, calculatePositionScore_le person W H⟩,
    ⟨calculateSizeScore_nonneg person W H hr, calculateSizeScore_le person W H⟩,
    ⟨le_trans (by norm_num) (calculateClarityScore_ge person hc0),
      calculateClarityScore_le person⟩,
    ⟨calculateCentralityScore_nonneg person W H, calculateCentralityScore_le person W H⟩,
    ⟨le_trans (by norm_num) (calculateOrientationScore_ge person W H),
      calculateOrientationScore_le person W H⟩⟩

/-! ## Partition properties of the separator -/

theorem length_filter_mem {α β : Type} [DecidableEq β] (l : List α) (f : α → β) (ids : List β)
    (hl : (l.map f).Nodup) (hids : ids.Nodup) (hsub : ∀ b ∈ ids, b ∈ l.map f) :
    (l.filter fun a => f a ∈ ids).length = ids.length := by
  have h1 : ((l.map f).filter fun b => b ∈ ids) = (l.filter fun a => f a ∈ ids).map f := by
    rw [List.filter_map]
    rfl
  have h2 : (((l.map f).filter fun b => b ∈ ids)).Perm ids := by
    refine (List.perm_ext_iff_of_nodup (hl.filter _) hids).mpr ?_
    intro b
    simp only [List.mem_filter, decide_eq_true_eq]
    constructor
    · rintro ⟨_, hb⟩
      exact hb
    · intro hb
      exact ⟨hsub b hb, hb⟩
  have h3 := h2.length_eq
  rw [h1, List.length_map] at h3
  exact h3

/-- C2: for pairwise-distinct ids, `separateForegroundBackground` splits the
input into disjoint foreground/background parts whose concatenation is a
permutation of the input, with exactly `min targetForegroundCount count`
foreground masks; `targetForegroundCount = 0` keeps everything in the
background, and an empty input produces the all-empty result. -/
theorem separateForegroundBackground_partition (d : DetectionResult) (t : ℕ)
    (hid : (d.masks.map PersonMask.id).Nodup) :
    ((separateForegroundBackground d t).foregroundMasks ++
      (separateForegroundBackground d t).backgroundMasks).Perm d.masks ∧
    (∀ m, m ∈ (separateForegroundBackground d t).foregroundMasks →
      m ∉ (separateForegroundBackground d t).backgroundMasks) ∧
    (separateForegroundBackground d t).foregroundMasks.length = min t d.masks.length ∧
    (t = 0 → (separateForegroundBackground d t).foregroundMasks = [] ∧
      (separateForegroundBackground d t).backgroundMasks = d.masks) ∧
    (d.masks = [] → separateForegroundBackground d t =
      { foregroundMasks := [], backgroundMasks := [],
        foregroundMask := "", backgroundMask := "" }) := by
  by_cases h0 : d.masks.length = 0
  · have hm : d.masks = [] := List.length_eq_zero.mp h0
    have hsep : separateForegroundBackground d t =
        { foregroundMasks := [], backgroundMasks := [],
          foregroundMask := "", backgroundMask := "" } := by
      unfold separateForegroundBackground
      rw [if_pos h0]
    rw [hsep]
    refine ⟨by simp [hm], by simp, by simp [hm], fun _ => ⟨rfl, hm.symm⟩, fun _ => rfl⟩
  · set scores := d.masks.map
      (fun m => calculateForegroundScore m d.imageWidth d.imageHeight) with hscores
    set sorted := List.insertionSort byScoreDesc scores with hsorted
    set fc := min t scores.length with hfc
    set foregroundIds := (sorted.take fc).map ForegroundScore.personId with hfgids
    set fg := d.masks.filter (fun m => m.id ∈ foregroundIds) with hfg
    set bg := d.masks.filter (fun m => m.id ∉ foregroundIds) with hbg
    have hsep : separateForegroundBackground d t =
        { foregroundMasks := fg, backgroundMasks := bg,
          foregroundMask := combineMasks fg, backgroundMask := combineMasks bg } := by
      unfold separateForegroundBackground
      rw [if_neg h0]
    have htperm : sorted.Perm scores := List.perm_insertionSort _ _
    have hids : scores.map ForegroundScore.personId = d.masks.map PersonMask.id := by
      rw [hscores, List.map_map]
      rfl
    have hsortIds : (sorted.map ForegroundScore.personId).Perm (d.masks.map PersonMask.id) := by
      rw [← hids]
      exact htperm.map _
    have hnodupSorted : (sorted.map ForegroundScore.personId).Nodup :=
      hsortIds.nodup_iff.mpr hid
    have hfgIds_eq : foregroundIds = (sorted.map ForegroundScore.personId).take fc := by
      rw [hfgids, List.map_take]
    have hfgIds_nodup : foregroundIds.Nodup := by
      rw [hfgIds_eq]
      exact (List.take_sublist _ _).nodup hnodupSorted
    have hfgIds_sub : ∀ b ∈ foregroundIds, b ∈ d.masks.map PersonMask.id := by
      intro b hb
      rw [hfgIds_eq] at hb
      exact hsortIds.mem_iff.mp ((List.take_sublist _ _).subset hb)
    have hlen_sorted : sorted.length = scores.length := htperm.length_eq
    have hfgIds_len : foregroundIds.length = fc := by
      rw [hfgIds_eq, List.length_take, List.length_map, hlen_sorted]
      have : fc ≤ scores.length := min_le_right t scores.length
      omega
    have hscores_len : scores.length = d.masks.length := by
      rw [hscores, List.length_map]
    rw [hsep]
    refine ⟨?_, ?_, ?_, ?_, ?_⟩
    · have h := List.filter_append_perm (fun m : PersonMask => decide (m.id ∈ foregroundIds))
        d.masks
      simpa [hfg, hbg, decide_not] using h
    · intro m hm1 hm2
      rw [hfg, List.mem_filter] at hm1
      rw [hbg, List.mem_filter] at hm2
      simp only [decide_eq_true_eq] at hm1 hm2
      exact hm2.2 hm1.2
    · have hflen := length_filter_mem d.masks PersonMask.id foregroundIds hid hfgIds_nodup
        hfgIds_sub
      rw [hfg, hflen, hfgIds_len, hfc, hscores_len]
    · intro ht
      subst ht
      have hids0 : foregroundIds = [] := by
        rw [hfgids, hfc]
        simp
      constructor
      · rw [hfg, hids0]
        simp
      · rw [hbg, hids0]
        simp
    · intro hme
      exact absurd (by rw [hme]; rfl) h0

/-! ## Short-circuit behaviour of the orchestrator -/

theorem calculateForegroundScore_personId (m : PersonMask) (W H : ℝ) :
    (calculateForegroundScore m W H).personId = m.id := rfl

theorem separateForegroundBackground_singleton (m : PersonMask) (W H : ℝ) (t : ℕ)
    (ht : 1 ≤ t) :
    separateForegroundBackground { masks := [m], imageWidth := W, imageHeight := H } t =
      { foregroundMasks := [m], backgroundMasks := [],
        foregroundMask := m.mask, backgroundMask := "" } := by
  unfold separateForegroundBackground
  rw [if_neg (by simp)]
  simp [List.insertionSort, List.orderedInsert, Nat.min_eq_right ht, combineMasks,
    calculateForegroundScore_personId]

theorem autoRemoveBackgroundPeople_shortCircuit (w : PipelineWorld) (elapsedMs : ℕ)
    (imageUrl : String) (options : PersonRemovalOptions) (d : DetectionResult)
    (hdet : detectPhase w (options.fallbackToYOLO.getD true) = .ok d)
    (hne : ¬ d.masks.length = 0)
    (hbg : (separateForegroundBackground d
      (options.targetForegroundCount.getD 1)).backgroundMasks = []) :
    autoRemoveBackgroundPeople w elapsedMs imageUrl options =
      ({ success := true, resultUrl := some imageUrl, processingTime := elapsedMs,
         details :=
           { peopleDetected := d.masks.length
             foregroundPeople := (separateForegroundBackground d
               (options.targetForegroundCount.getD 1)).foregroundMasks.length
             backgroundPeople := 0
             modelUsed := "SAM-2/YOLO"
             inpaintingModel := "none" },
         error := none }, []) := by
  unfold autoRemoveBackgroundPeople
  dsimp only
  rw [hdet]
  dsimp only
  rw [if_neg hne, if_pos (by rw [hbg]; rfl)]

/-- C1: when detection succeeds with at least one mask and separation leaves
an empty background set, the pipeline short-circuits to success with the
original image url, inpainting model "none", and no inpainting back-end is
attempted. -/
theorem autoRemoveBackgroundPeople_noRemovalNeeded (w : PipelineWorld) (elapsedMs : ℕ)
    (imageUrl : String) (options : PersonRemovalOptions) (d : DetectionResult)
    (hdet : detectPhase w (options.fallbackToYOLO.getD true) = .ok d)
    (hne : d.masks ≠ [])
    (hbg : (separateForegroundBackground d
      (options.targetForegroundCount.getD 1)).backgroundMasks = []) :
    (autoRemoveBackgroundPeople w elapsedMs imageUrl options).1.success = true ∧
    (autoRemoveBackgroundPeople w elapsedMs imageUrl options).1.resultUrl = some imageUrl ∧
    (autoRemoveBackgroundPeople w elapsedMs imageUrl options).1.details.inpaintingModel =
      "none" ∧
    (autoRemoveBackgroundPeople w elapsedMs imageUrl options).2 = [] := by
  have hne' : ¬ d.masks.length = 0 := fun h => hne (List.length_eq_zero.mp h)
  rw [autoRemoveBackgroundPeople_shortCircuit w elapsedMs imageUrl options d hdet hne' hbg]
  exact ⟨rfl, rfl, rfl, rfl⟩

/-! ## Error propagation -/

theorem string_append_ne_empty (s t : String) (h : ¬ s.length = 0) : s ++ t ≠ "" := by
  intro hc
  have h2 := congrArg String.length hc
  rw [String.length_append] at h2
  have h3 : ("" : String).length = 0 := rfl
  omega

theorem detectPeopleInImage_error_ne {c : Except String (Option (List SamItem))} {e : String}
    (h : detectPeopleInImage c = .error e) : e ≠ "" := by
  cases c with
  | error s =>
    simp only [detectPeopleInImage, Except.error.injEq] at h
    rw [← h]
    exact string_append_ne_empty _ _ (by decide)
  | ok o =>
    cases o with
    | none =>
      simp only [detectPeopleInImage, Except.error.injEq] at h
      rw [← h]
      exact string_append_ne_empty _ _ (by decide)
    | some items => simp [detectPeopleInImage] at h

theorem detectPhase_error_ne {w : PipelineWorld} {fb : Bool} {e : String}
    (h : detectPhase w fb = .error e) : e ≠ "" := by
  unfold detectPhase at h
  cases hd : detectPeopleInImage w.samCall with
  | ok d =>
    rw [hd] at h
    simp at h
  | error e1 =>
    rw [hd] at h
    cases fb with
    | false =>
      simp only [Bool.false_eq_true, if_false, Except.error.injEq] at h
      rw [← h]
      exact detectPeopleInImage_error_ne hd
    | true =>
      simp only [if_true] at h
      cases hy : detectPeopleWithYOLO w.yoloCall w.refineCall with
      | ok d =>
        rw [hy] at h
        simp at h
      | error e2 =>
        rw [hy] at h
        simp only [Except.error.injEq] at h
        rw [← h]
        exact string_append_ne_empty _ _ (by decide)

theorem tryChain_error {w : InpaintWorld} {t : ℕ} {u mk pr : String} {tr : List String}
    {e : String} (h : (tryChain w t u mk pr tr).1 = .error e) :
    e = "All inpainting models failed" := by
  unfold tryChain at h
  cases hs : inpaintWithStabilityAI w.stability t u mk pr with
  | ok r =>
    rw [hs] at h
    simp at h
  | error e1 =>
    rw [hs] at h
    cases hr : inpaintWithRunwayML w.runwayml t u mk pr with
    | ok r =>
      rw [hr] at h
      simp at h
    | error e2 =>
      rw [hr] at h
      cases hf : inpaintWithFLUX w.flux t u mk pr with
      | ok r =>
        rw [hf] at h
        simp at h
      | error e3 =>
        rw [hf] at h
        simp only [Except.error.injEq] at h
        exact h.symm

theorem smartInpainting_error {w : InpaintWorld} {t : ℕ} {u mk pr : String}
    {pm : Option String} {e : String} (h : (smartInpainting w t u mk pr pm).1 = .error e) :
    e = "All inpainting models failed" := by
  unfold smartInpainting at h
  split at h
  · rename_i heq
    split at h
    · simp at h
    · exact tryChain_error h
  · rename_i heq
    split at h
    · simp at h
    · exact tryChain_error h
  · rename_i heq
    split at h
    · simp at h
    · exact tryChain_error h
  · exact tryChain_error h

/-- C8: every result of the orchestrator that reports `success = false`
carries a non-empty error string; in this embedding the orchestrator is a
total function into `PersonRemovalResult`, so no stage-level fault can
escape to the caller. -/
theorem autoRemoveBackgroundPeople_failure_has_error (w : PipelineWorld) (elapsedMs : ℕ)
    (imageUrl : String) (options : PersonRemovalOptions) :
    (autoRemoveBackgroundPeople w elapsedMs imageUrl options).1.success = false →
    ∃ e, (autoRemoveBackgroundPeople w elapsedMs imageUrl options).1.error = some e ∧
      e ≠ "" := by
  unfold autoRemoveBackgroundPeople
  dsimp only
  split
  · rename_i e heq
    intro _
    exact ⟨e, rfl, detectPhase_error_ne heq⟩
  · rename_i d heq
    split
    · intro _
      exact ⟨_, rfl, by decide⟩
    · split
      · intro hc
        simp at hc
      · split
        · intro _
          exact ⟨_, rfl, by decide⟩
        · split
          · rename_i e tr heq2
            intro _
            refine ⟨e, rfl, ?_⟩
            have h1 : (smartInpainting w.inpaint elapsedMs imageUrl
                (generateInpaintingMask
                  (separateForegroundBackground d
                    (options.targetForegroundCount.getD 1)).backgroundMasks
                  d.imageWidth d.imageHeight)
                (generateOptimizedPrompt options.customPrompt (some "outdoor"))
                options.preferredInpaintingModel).1 = .error e := by
              rw [heq2]
            rw [smartInpainting_error h1]
            decide
          · rename_i r tr heq2
            rw [if_neg (by simp [validateInpaintingResult])]
            intro hc
            simp at hc

/-! ## The fallback detection path -/

theorem detectPeopleInImage_primaryWorld :
    detectPeopleInImage primaryWorld.samCall =
      .ok { masks := [primaryMask], imageWidth := 1024, imageHeight := 1024 } := by
  simp only [detectPeopleInImage, primaryWorld, samMasks, samItem1, jsStrOr, jsNumOr,
    Option.getD, List.filter]
  norm_num [primaryMask]
  constructor
  · decide
  · decide

theorem detectPeopleWithYOLO_fallbackWorld :
    detectPeopleWithYOLO fallbackWorld.yoloCall fallbackWorld.refineCall =
      .ok { masks := [fallbackMask], imageWidth := 1024, imageHeight := 1024 } := by
  simp only [detectPeopleWithYOLO, fallbackWorld, yoloLoop, yoloDet1, jsNumOr, Option.getD]
  norm_num [fallbackMask]
  rw [if_neg (by decide)]
  norm_num
  decide

/-- C9 (amended): when the primary detector throws, `fallbackToYOLO` is on
and the fallback chain succeeds with exactly one person (with a foreground
target of at least 1), the result reports `peopleDetected = 1` and
`modelUsed = "SAM-2/YOLO"` — the same constant as on the primary path, so
`modelUsed` does not identify which detection path ran. -/
theorem autoRemoveBackgroundPeople_fallbackPath (w : PipelineWorld) (elapsedMs : ℕ)
    (imageUrl : String) (options : PersonRemovalOptions) (e : String) (m : PersonMask)
    (W H : ℝ)
    (hprim : detectPeopleInImage w.samCall = .error e)
    (hfb : options.fallbackToYOLO.getD true = true)
    (hyolo : detectPeopleWithYOLO w.yoloCall w.refineCall =
      .ok { masks := [m], imageWidth := W, imageHeight := H })
    (htgt : 1 ≤ options.targetForegroundCount.getD 1) :
    (autoRemoveBackgroundPeople w elapsedMs imageUrl options).1.details.peopleDetected = 1 ∧
    (autoRemoveBackgroundPeople w elapsedMs imageUrl options).1.details.modelUsed =
      "SAM-2/YOLO" := by
  have hdet : detectPhase w (options.fallbackToYOLO.getD true) =
      .ok { masks := [m], imageWidth := W, imageHeight := H } := by
    unfold detectPhase
    rw [hprim, hfb]
    simp [hyolo]
  have hbg := separateForegroundBackground_singleton m W H
    (options.targetForegroundCount.getD 1) htgt
  rw [autoRemoveBackgroundPeople_shortCircuit w elapsedMs imageUrl options
    { masks := [m], imageWidth := W, imageHeight := H } hdet (by simp) (by rw [hbg])]
  exact ⟨rfl, rfl⟩

/-- Counterexample to C9 as stated: `modelUsed` is `"SAM-2/YOLO"` both in a
world where the primary detector succeeds (one person) and in a world where
the primary detector throws and the fallback chain succeeds (one box), so
the `modelUsed` value does not distinguish the fallback path from the
primary path. -/
theorem modelUsed_does_not_distinguish_fallback :
    detectPeopleInImage primaryWorld.samCall =
      .ok { masks := [primaryMask], imageWidth := 1024, imageHeight := 1024 } ∧
    detectPeopleInImage fallbackWorld.samCall = .error "Failed to detect people: boom" ∧
    detectPeopleWithYOLO fallbackWorld.yoloCall fallbackWorld.refineCall =
      .ok { masks := [fallbackMask], imageWidth := 1024, imageHeight := 1024 } ∧
    (autoRemoveBackgroundPeople primaryWorld 5 "img" emptyOptions).1.details.modelUsed =
      "SAM-2/YOLO" ∧
    (autoRemoveBackgroundPeople fallbackWorld 5 "img" emptyOptions).1.details.modelUsed =
      "SAM-2/YOLO" := by
  have h2 : detectPeopleInImage fallbackWorld.samCall =
      .error "Failed to detect people: boom" := rfl
  have hdet1 : detectPhase primaryWorld (emptyOptions.fallbackToYOLO.getD true) =
      .ok { masks := [primaryMask], imageWidth := 1024, imageHeight := 1024 } := by
    unfold detectPhase
    rw [detectPeopleInImage_primaryWorld]
  have hbg1 := separateForegroundBackground_singleton primaryMask 1024 1024
    (emptyOptions.targetForegroundCount.getD 1) (by decide)
  have hbg2 := separateForegroundBackground_singleton fallbackMask 1024 1024
    (emptyOptions.targetForegroundCount.getD 1) (by decide)
  have hdet2 : detectPhase fallbackWorld (emptyOptions.fallbackToYOLO.getD true) =
      .ok { masks := [fallbackMask], imageWidth := 1024, imageHeight := 1024 } := by
    unfold detectPhase
    rw [h2]
    simp [detectPeopleWithYOLO_fallbackWorld, emptyOptions]
  refine ⟨detectPeopleInImage_primaryWorld, h2, detectPeopleWithYOLO_fallbackWorld, ?_, ?_⟩
  · rw [autoRemoveBackgroundPeople_shortCircuit primaryWorld 5 "img" emptyOptions
      { masks := [primaryMask], imageWidth := 1024, imageHeight := 1024 } hdet1 (by simp)
      (by rw [hbg1])]
  · rw [autoRemoveBackgroundPeople_shortCircuit fallbackWorld 5 "img" emptyOptions
      { masks := [fallbackMask], imageWidth := 1024, imageHeight := 1024 } hdet2 (by simp)
      (by rw [hbg2])]

/-! ## Preferred-model policy of the inpainting selector -/

theorem tryChain_snd_head (w : InpaintWorld) (t : ℕ) (u mk pr : String) (x : String)
    (tr : List String) : (tryChain w t u mk pr (x :: tr)).2.head? = some x := by
  unfold tryChain
  cases h1 : inpaintWithStabilityAI w.stability t u mk pr with
  | ok r => rfl
  | error e1 =>
    cases h2 : inpaintWithRunwayML w.runwayml t u mk pr with
    | ok r => rfl
    | error e2 =>
      cases h3 : inpaintWithFLUX w.flux t u mk pr with
      | ok r => rfl
      | error e3 => rfl

/-- C7: a preferred back-end is always attempted first; when it fails the
ordered list (stability, runwayml, flux) is walked from its beginning, the
preferred back-end not excluded; and when every attempt fails, the selector
throws `All inpainting models failed`. -/
theorem smartInpainting_preferred_policy (w : InpaintWorld) (t : ℕ)
    (u mk pr p es er ef : String)
    (hp : p = "stability" ∨ p = "runwayml" ∨ p = "flux")
    (hs : inpaintWithStabilityAI w.stability t u mk pr = .error es)
    (hr : inpaintWithRunwayML w.runwayml t u mk pr = .error er)
    (hf : inpaintWithFLUX w.flux t u mk pr = .error ef) :
    (smartInpainting w t u mk pr (some p)).2 = p :: ["stability", "runwayml", "flux"] ∧
    (smartInpainting w t u mk pr (some p)).1 = .error "All inpainting models failed" ∧
    ∀ (w' : InpaintWorld) (t' : ℕ) (u' mk' pr' : String),
      (smartInpainting w' t' u' mk' pr' (some p)).2.head? = some p := by
  have hchain : ∀ tr : List String, tryChain w t u mk pr tr =
      (.error "All inpainting models failed", tr ++ ["stability", "runwayml", "flux"]) := by
    intro tr
    unfold tryChain
    rw [hs, hr, hf]
  have hhead : ∀ (w' : InpaintWorld) (t' : ℕ) (u' mk' pr' : String),
      (smartInpainting w' t' u' mk' pr' (some p)).2.head? = some p := by
    intro w' t' u' mk' pr'
    rcases hp with hp1 | hp1 | hp1 <;> subst hp1
    · unfold smartInpainting
      cases hx : inpaintWithStabilityAI w'.stability t' u' mk' pr' with
      | ok r => rfl
      | error e0 => exact tryChain_snd_head w' t' u' mk' pr' "stability" []
    · unfold smartInpainting
      cases hx : inpaintWithRunwayML w'.runwayml t' u' mk' pr' with
      | ok r => rfl
      | error e0 => exact tryChain_snd_head w' t' u' mk' pr' "runwayml" []
    · unfold smartInpainting
      cases hx : inpaintWithFLUX w'.flux t' u' mk' pr' with
      | ok r => rfl
      | error e0 => exact tryChain_snd_head w' t' u' mk' pr' "flux" []
  have hfull : smartInpainting w t u mk pr (some p) =
      (.error "All inpainting models failed", p :: ["stability", "runwayml", "flux"]) := by
    rcases hp with hp1 | hp1 | hp1 <;> subst hp1
    · have e1 : smartInpainting w t u mk pr (some "stability") =
          tryChain w t u mk pr ["stability"] := by
        unfold smartInpainting
        rw [hs]
        rfl
      rw [e1, hchain]
      rfl
    · have e1 : smartInpainting w t u mk pr (some "runwayml") =
          tryChain w t u mk pr ["runwayml"] := by
        unfold smartInpainting
        rw [hr]
        rfl
      rw [e1, hchain]
      rfl
    · have e1 : smartInpainting w t u mk pr (some "flux") =
          tryChain w t u mk pr ["flux"] := by
        unfold smartInpainting
        rw [hf]
        rfl
      rw [e1, hchain]
      rfl
  exact ⟨by rw [hfull], by rw [hfull], hhead⟩

/-! ## The retry wrapper -/

theorem backoff_range_shift (a : ℤ) (f : ℕ) (ds : List ℕ) :
    (ds ++ [backoffDelay a]) ++
      (List.range f).map (fun i : ℕ => backoffDelay (a + 1 + i)) =
    ds ++ (List.range (f + 1)).map (fun i : ℕ => backoffDelay (a + i)) := by
  rw [List.append_assoc]
  congr 1
  rw [List.range_succ_eq_map, List.map_cons, List.map_map, List.singleton_append]
  congr 1
  · congr 1
    norm_num
  · apply List.map_congr_left
    intro i _
    simp only [Function.comp_apply]
    congr 1
    push_cast
    ring

theorem retryGo_allFail (run : ℤ → Except String PersonRemovalResult) (M : ℤ)
    (hfail : ∀ a r, run a = .ok r → r.success = false) :
    ∀ (fuel : ℕ) (attempt : ℤ) (invocations : ℕ) (delays : List ℕ),
      1 ≤ fuel → attempt + fuel = M + 1 →
      retryGo run M fuel attempt invocations delays =
        (attemptOutcome run M, invocations + fuel,
         delays ++ (List.range (fuel - 1)).map (fun i : ℕ => backoffDelay (attempt + i))) := by
  intro fuel
  induction fuel with
  | zero =>
    intro _ _ _ h1 _
    exact absurd h1 (by norm_num)
  | succ f ih =>
    intro attempt invocations delays _ hsum
    by_cases hlast : f = 0
    · subst hlast
      have hM : attempt = M := by push_cast at hsum; omega
      subst hM
      unfold retryGo attemptOutcome
      cases hrun : run attempt with
      | ok r =>
        have hs := hfail attempt r hrun
        simp [hs]
      | error e =>
        simp
    · have hne : ¬ attempt = M := by push_cast at hsum; omega
      unfold retryGo
      cases hrun : run attempt with
      | ok r =>
        have hs := hfail attempt r hrun
        simp only [hs, Bool.false_eq_true, if_false, if_neg hne]
        rw [ih (attempt + 1) (invocations + 1) (delays ++ [backoffDelay attempt]) (by omega)
          (by push_cast at hsum ⊢; omega)]
        have hf1 : f - 1 + 1 = f := by omega
        rw [backoff_range_shift, hf1]
        refine congrArg _ ?_
        refine congrArg₂ _ (by omega) rfl
      | error e =>
        simp only [if_neg hne]
        rw [ih (attempt + 1) (invocations + 1) (delays ++ [backoffDelay attempt]) (by omega)
          (by push_cast at hsum ⊢; omega)]
        have hf1 : f - 1 + 1 = f := by omega
        rw [backoff_range_shift, hf1]
        refine congrArg _ ?_
        refine congrArg₂ _ (by omega) rfl

/-- C3: with `maxRetries = N >= 1` and an inner pipeline that never
succeeds (every attempt returns a non-success result or throws), the retry
wrapper performs exactly N invocations and returns the N-th attempt's
result (or the failure result built from the N-th attempt's caught error). -/
theorem autoRemoveBackgroundPeopleWithRetry_allFail
    (run : ℤ → Except String PersonRemovalResult) (options : PersonRemovalOptions) (N : ℤ)
    (hN : options.maxRetries = some N) (h1 : 1 ≤ N)
    (hfail : ∀ a r, run a = .ok r → r.success = false) :
    (autoRemoveBackgroundPeopleWithRetry run options).2.1 = N.toNat ∧
    (autoRemoveBackgroundPeopleWithRetry run options).1 = attemptOutcome run N := by
  unfold autoRemoveBackgroundPeopleWithRetry
  rw [hN]
  dsimp only [Option.getD]
  rw [retryGo_allFail run N hfail N.toNat 1 0 [] (by omega) (by omega)]
  refine ⟨?_, rfl⟩
  dsimp only
  omega

/-- C6: with an always-failing inner pipeline and `maxRetries = N`, the
delay waited between failed attempt `k-1` and attempt `k` (2 <= k <= N) is
exactly `min (1000 * 2^(k-2)) 5000` milliseconds. -/
theorem autoRemoveBackgroundPeopleWithRetry_backoff
    (run : ℤ → Except String PersonRemovalResult) (options : PersonRemovalOptions)
    (N : ℤ) (k : ℕ) (hN : options.maxRetries = some N)
    (hfail : ∀ a r, run a = .ok r → r.success = false)
    (hk2 : 2 ≤ k) (hkN : (k : ℤ) ≤ N) :
    (autoRemoveBackgroundPeopleWithRetry run options).2.2[k - 2]? =
      some (min (1000 * 2 ^ (k - 2)) 5000) := by
  unfold autoRemoveBackgroundPeopleWithRetry
  rw [hN]
  dsimp only [Option.getD]
  rw [retryGo_allFail run N hfail N.toNat 1 0 [] (by omega) (by omega)]
  dsimp only
  rw [List.nil_append, List.getElem?_map, List.getElem?_range (by omega)]
  dsimp only [Option.map]
  unfold backoffDelay
  have he : ((1 : ℤ) + (k - 2 : ℕ) - 1).toNat = k - 2 := by omega
  rw [he]

/-- C10: with `maxRetries <= 0` the loop body never runs — the inner
pipeline is invoked zero times and the wrapper returns the
`Max retries exceeded` failure with `processingTime = 0` and all-zero,
all-"none" details. -/
theorem autoRemoveBackgroundPeopleWithRetry_nonpositive
    (run : ℤ → Except String PersonRemovalResult) (options : PersonRemovalOptions) (M : ℤ)
    (hM : options.maxRetries = some M) (hM0 : M ≤ 0) :
    autoRemoveBackgroundPeopleWithRetry run options =
      ({ success := false, resultUrl := none, processingTime := 0,
         details := { peopleDetected := 0, foregroundPeople := 0, backgroundPeople := 0, modelUsed := "none", inpaintingModel := "none" },
         error := some "Max retries exceeded" }, 0, []) := by
  unfold autoRemoveBackgroundPeopleWithRetry
  rw [hM]
  dsimp only [Option.getD]
  have ht : M.toNat = 0 := by omega
  rw [ht]
  rfl

/-! ## Scenario B: centered person beats corner person -/

theorem calculateForegroundScore_score_eq (m : PersonMask) (W H : ℝ) :
    (calculateForegroundScore m W H).score =
      max 0 (min 100 (calculatePositionScore m W H * 0.30 + calculateSizeScore m W H * 0.25 +
        calculateCentralityScore m W H * 0.20 + calculateOrientationScore m W H * 0.15 +
        calculateClarityScore m * 0.10)) := rfl

theorem calculatePositionScore_center (m : PersonMask) (W H : ℝ)
    (hcx : m.bboxX + m.bboxW / 2 = W / 2) (hcy : m.bboxY + m.bboxH / 2 = H / 2) :
    calculatePositionScore m W H = 100 := by
  unfold calculatePositionScore
  dsimp only
  rw [hcx, hcy]
  simp [Real.sqrt_zero, Real.exp_zero]

theorem calculateCentralityScore_center (m : PersonMask) (W H : ℝ)
    (hpx : m.centerX = W / 2) (hpy : m.centerY = H / 2) :
    calculateCentralityScore m W H = 100 := by
  unfold calculateCentralityScore
  dsimp only
  rw [hpx, hpy]
  simp [Real.sqrt_zero, Real.exp_zero]

theorem calculateSizeScore_ideal (m : PersonMask) (W H : ℝ) (hW : 0 < W) (hH : 0 < H)
    (harea : m.bboxW * m.bboxH = 0.20 * (W * H)) : calculateSizeScore m W H = 100 := by
  unfold calculateSizeScore
  dsimp only
  have hr : m.bboxW * m.bboxH / (W * H) = 0.20 := by
    rw [harea]
    field_simp
  rw [hr, if_neg (by norm_num), if_neg (by norm_num)]

theorem calculateSizeScore_small (m : PersonMask) (W H : ℝ) (hW : 0 < W) (hH : 0 < H)
    (harea : m.bboxW * m.bboxH = 0.02 * (W * H)) : calculateSizeScore m W H = 24 := by
  unfold calculateSizeScore
  dsimp only
  have hr : m.bboxW * m.bboxH / (W * H) = 0.02 := by
    rw [harea]
    field_simp
  rw [hr, if_pos (by norm_num)]
  norm_num

theorem calculateOrientationScore_center (m : PersonMask) (W H : ℝ) (hW : 0 < W) (hH : 0 < H)
    (hcx : m.bboxX + m.bboxW / 2 = W / 2) (hcy : m.bboxY + m.bboxH / 2 = H / 2) :
    calculateOrientationScore m W H = 100 := by
  unfold calculateOrientationScore
  dsimp only
  rw [hcx, hcy, if_pos (by constructor <;> nlinarith), if_pos (by nlinarith)]
  norm_num

theorem foregroundScore_centered_ge (m : PersonMask) (W H : ℝ) (hW : 0 < W) (hH : 0 < H)
    (hcx : m.bboxX + m.bboxW / 2 = W / 2) (hcy : m.bboxY + m.bboxH / 2 = H / 2)
    (hpx : m.centerX = W / 2) (hpy : m.centerY = H / 2)
    (harea : m.bboxW * m.bboxH = 0.20 * (W * H)) (hc0 : 0 ≤ m.confidence) :
    97 ≤ (calculateForegroundScore m W H).score := by
  rw [calculateForegroundScore_score_eq, calculatePositionScore_center m W H hcx hcy,
    calculateCentralityScore_center m W H hpx hpy, calculateSizeScore_ideal m W H hW hH harea,
    calculateOrientationScore_center m W H hW hH hcx hcy]
  have h70 := calculateClarityScore_ge m hc0
  have h100 := calculateClarityScore_le m
  rw [min_eq_right (by nlinarith), max_eq_right (by nlinarith)]
  nlinarith

theorem foregroundScore_corner_le (m : PersonMask) (W H : ℝ) (hW : 0 < W) (hH : 0 < H)
    (harea : m.bboxW * m.bboxH = 0.02 * (W * H)) :
    (calculateForegroundScore m W H).score ≤ 81 := by
  rw [calculateForegroundScore_score_eq, calculateSizeScore_small m W H hW hH harea]
  have hpos := calculatePositionScore_le m W H
  have hpos0 := calculatePositionScore_nonneg m W H
  have hcent := calculateCentralityScore_le m W H
  have hor := calculateOrientationScore_le m W H
  have hcl := calculateClarityScore_le m
  apply max_le (by norm_num)
  apply le_trans (min_le_right 100 _)
  nlinarith

theorem insertionSort_pair (a b : ForegroundScore) (h : byScoreDesc a b) :
    List.insertionSort byScoreDesc [a, b] = [a, b] := by
  simp [List.insertionSort, List.orderedInsert, if_pos h]

/-- C5: with one person centered on the image center holding 20% of the
image area and one person at the corner holding 2%, `targetForegroundCount
= 1` keeps the centered person as foreground and sends the corner person to
the background, whose inpainting mask is non-empty. -/
theorem separateForegroundBackground_scenarioB (W H : ℝ) (m1 m2 : PersonMask)
    (hW : 0 < W) (hH : 0 < H)
    (h1cx : m1.bboxX + m1.bboxW / 2 = W / 2) (h1cy : m1.bboxY + m1.bboxH / 2 = H / 2)
    (h1px : m1.centerX = W / 2) (h1py : m1.centerY = H / 2)
    (h1area : m1.bboxW * m1.bboxH = 0.20 * (W * H)) (h1c : 0 ≤ m1.confidence)
    (h2cx : m2.bboxX + m2.bboxW / 2 = 0) (h2cy : m2.bboxY + m2.bboxH / 2 = 0)
    (h2area : m2.bboxW * m2.bboxH = 0.02 * (W * H))
    (hid : m1.id ≠ m2.id) (hmask : m2.mask ≠ "") :
    (separateForegroundBackground
        { masks := [m1, m2], imageWidth := W, imageHeight := H } 1).foregroundMasks = [m1] ∧
    (separateForegroundBackground
        { masks := [m1, m2], imageWidth := W, imageHeight := H } 1).backgroundMasks = [m2] ∧
    generateInpaintingMask
      (separateForegroundBackground
        { masks := [m1, m2], imageWidth := W, imageHeight := H } 1).backgroundMasks W H ≠
      "" := by
  have hs1 := foregroundScore_centered_ge m1 W H hW hH h1cx h1cy h1px h1py h1area h1c
  have hs2 := foregroundScore_corner_le m2 W H hW hH h2area
  have horder : byScoreDesc (calculateForegroundScore m1 W H)
      (calculateForegroundScore m2 W H) := by
    unfold byScoreDesc
    linarith
  have hsep : separateForegroundBackground
      { masks := [m1, m2], imageWidth := W, imageHeight := H } 1 =
      { foregroundMasks := [m1], backgroundMasks := [m2],
        foregroundMask := m1.mask, backgroundMask := m2.mask } := by
    unfold separateForegroundBackground
    rw [if_neg (by simp)]
    dsimp only [List.map]
    rw [insertionSort_pair _ _ horder]
    simp [calculateForegroundScore_personId, combineMasks, Ne.symm hid]
  rw [hsep]
  refine ⟨rfl, rfl, ?_⟩
  exact hmask

/-! ## Witnesses -/

theorem calculateForegroundScore_bounds_witness :
    (0:ℝ) < 1000 ∧ 0 ≤ c4person.confidence ∧ c4person.confidence ≤ 1 ∧
    ((0 ≤ (calculateForegroundScore c4person 1000 1000).score ∧
      (calculateForegroundScore c4person 1000 1000).score ≤ 100) ∧
     (0 ≤ (calculateForegroundScore c4person 1000 1000).factors.position ∧
      (calculateForegroundScore c4person 1000 1000).factors.position ≤ 100) ∧
     (0 ≤ (calculateForegroundScore c4person 1000 1000).factors.size ∧
      (calculateForegroundScore c4person 1000 1000).factors.size ≤ 100) ∧
     (0 ≤ (calculateForegroundScore c4person 1000 1000).factors.clarity ∧
      (calculateForegroundScore c4person 1000 1000).factors.clarity ≤ 100) ∧
     (0 ≤ (calculateForegroundScore c4person 1000 1000).factors.centrality ∧
      (calculateForegroundScore c4person 1000 1000).factors.centrality ≤ 100) ∧
     (0 ≤ (calculateForegroundScore c4person 1000 1000).factors.orientation ∧
      (calculateForegroundScore c4person 1000 1000).factors.orientation ≤ 100)) :=
  ⟨by norm_num, by norm_num [c4person], by norm_num [c4person],
   calculateForegroundScore_bounds c4person 1000 1000 (by norm_num) (by norm_num)
     (by norm_num [c4person]) (by norm_num [c4person]) (by norm_num [c4person])
     (by norm_num [c4person]) (by norm_num [c4person]) (by norm_num [c4person])
     (by norm_num [c4person]) (by norm_num [c4person])⟩

theorem separateForegroundBackground_scenarioB_witness :
    c5centered.id ≠ c5corner.id ∧
    ((separateForegroundBackground
        { masks := [c5centered, c5corner], imageWidth := 1000, imageHeight := 1000 }
        1).foregroundMasks = [c5centered] ∧
     (separateForegroundBackground
        { masks := [c5centered, c5corner], imageWidth := 1000, imageHeight := 1000 }
        1).backgroundMasks = [c5corner] ∧
     generateInpaintingMask
       (separateForegroundBackground
         { masks := [c5centered, c5corner], imageWidth := 1000, imageHeight := 1000 }
         1).backgroundMasks 1000 1000 ≠ "") :=
  ⟨by simp [c5centered, c5corner],
   separateForegroundBackground_scenarioB 1000 1000 c5centered c5corner
     (by norm_num) (by norm_num)
     (by norm_num [c5centered]) (by norm_num [c5centered])
     (by norm_num [c5centered]) (by norm_num [c5centered])
     (by norm_num [c5centered]) (by norm_num [c5centered])
     (by norm_num [c5corner]) (by norm_num [c5corner]) (by norm_num [c5corner])
     (by simp [c5centered, c5corner]) (by simp [c5corner])⟩

theorem autoRemoveBackgroundPeople_noRemovalNeeded_witness :
    (autoRemoveBackgroundPeople primaryWorld 7 "img" emptyOptions).1.success = true ∧
    (autoRemoveBackgroundPeople primaryWorld 7 "img" emptyOptions).1.resultUrl = some "img" ∧
    (autoRemoveBackgroundPeople primaryWorld 7 "img" emptyOptions).1.details.inpaintingModel =
      "none" ∧
    (autoRemoveBackgroundPeople primaryWorld 7 "img" emptyOptions).2 = [] :=
  autoRemoveBackgroundPeople_noRemovalNeeded primaryWorld 7 "img" emptyOptions
    { masks := [primaryMask], imageWidth := 1024, imageHeight := 1024 }
    (by unfold detectPhase; rw [detectPeopleInImage_primaryWorld])
    (by simp)
    (by rw [separateForegroundBackground_singleton primaryMask 1024 1024
      (emptyOptions.targetForegroundCount.getD 1) (by decide)])

theorem separateForegroundBackground_partition_witness :
    (((DetectionResult.mk [primaryMask] 1000 1000).masks.map PersonMask.id).Nodup) ∧
    (((separateForegroundBackground (DetectionResult.mk [primaryMask] 1000 1000)
        1).foregroundMasks ++
      (separateForegroundBackground (DetectionResult.mk [primaryMask] 1000 1000)
        1).backgroundMasks).Perm (DetectionResult.mk [primaryMask] 1000 1000).masks ∧
    (∀ m, m ∈ (separateForegroundBackground (DetectionResult.mk [primaryMask] 1000 1000)
        1).foregroundMasks →
      m ∉ (separateForegroundBackground (DetectionResult.mk [primaryMask] 1000 1000)
        1).backgroundMasks) ∧
    (separateForegroundBackground (DetectionResult.mk [primaryMask] 1000 1000)
        1).foregroundMasks.length =
      min 1 (DetectionResult.mk [primaryMask] 1000 1000).masks.length ∧
    (1 = 0 → (separateForegroundBackground (DetectionResult.mk [primaryMask] 1000 1000)
        1).foregroundMasks = [] ∧
      (separateForegroundBackground (DetectionResult.mk [primaryMask] 1000 1000)
        1).backgroundMasks = (DetectionResult.mk [primaryMask] 1000 1000).masks) ∧
    ((DetectionResult.mk [primaryMask] 1000 1000).masks = [] →
      separateForegroundBackground (DetectionResult.mk [primaryMask] 1000 1000) 1 =
        { foregroundMasks := [], backgroundMasks := [],
          foregroundMask := "", backgroundMask := "" })) :=
  ⟨by simp, separateForegroundBackground_partition (DetectionResult.mk [primaryMask] 1000 1000)
    1 (by simp)⟩

theorem autoRemoveBackgroundPeopleWithRetry_allFail_witness :
    (1 : ℤ) ≤ 2 ∧
    ((autoRemoveBackgroundPeopleWithRetry alwaysFailRun twoRetryOptions).2.1 =
      (2 : ℤ).toNat ∧
    (autoRemoveBackgroundPeopleWithRetry alwaysFailRun twoRetryOptions).1 =
      attemptOutcome alwaysFailRun 2) :=
  ⟨by norm_num,
   autoRemoveBackgroundPeopleWithRetry_allFail alwaysFailRun twoRetryOptions 2 rfl
     (by norm_num)
     (by
       intro a r h
       have hr : r = failedResult := by simpa [alwaysFailRun] using h.symm
       rw [hr]
       rfl)⟩

theorem autoRemoveBackgroundPeopleWithRetry_backoff_witness :
    2 ≤ 2 ∧
    (autoRemoveBackgroundPeopleWithRetry alwaysFailRun twoRetryOptions).2.2[2 - 2]? =
      some (min (1000 * 2 ^ (2 - 2)) 5000) :=
  ⟨by norm_num,
   autoRemoveBackgroundPeopleWithRetry_backoff alwaysFailRun twoRetryOptions 2 2 rfl
     (by
       intro a r h
       have hr : r = failedResult := by simpa [alwaysFailRun] using h.symm
       rw [hr]
       rfl)
     (by norm_num) (by norm_num)⟩

theorem autoRemoveBackgroundPeopleWithRetry_nonpositive_witness :
    (0 : ℤ) ≤ 0 ∧
    autoRemoveBackgroundPeopleWithRetry alwaysFailRun zeroRetryOptions =
      ({ success := false, resultUrl := none, processingTime := 0,
         details := { peopleDetected := 0, foregroundPeople := 0, backgroundPeople := 0, modelUsed := "none", inpaintingModel := "none" },
         error := some "Max retries exceeded" }, 0, []) :=
  ⟨le_refl 0,
   autoRemoveBackgroundPeopleWithRetry_nonpositive alwaysFailRun zeroRetryOptions 0 rfl
     (le_refl 0)⟩

theorem smartInpainting_preferred_policy_witness :
    ("stability" = "stability" ∨ "stability" = "runwayml" ∨ "stability" = "flux") ∧
    ((smartInpainting deadInpaint 0 "u" "m" "p" (some "stability")).2 =
      "stability" :: ["stability", "runwayml", "flux"] ∧
    (smartInpainting deadInpaint 0 "u" "m" "p" (some "stability")).1 =
      .error "All inpainting models failed" ∧
    ∀ (w' : InpaintWorld) (t' : ℕ) (u' mk' pr' : String),
      (smartInpainting w' t' u' mk' pr' (some "stability")).2.head? = some "stability") :=
  ⟨Or.inl rfl,
   smartInpainting_preferred_policy deadInpaint 0 "u" "m" "p" "stability"
     "Failed to inpaint with Stability AI: unused"
     "Failed to inpaint with RunwayML: unused"
     "Failed to inpaint with FLUX: unused"
     (Or.inl rfl) rfl rfl rfl⟩

theorem autoRemoveBackgroundPeople_failure_has_error_witness :
    (autoRemoveBackgroundPeople failWorld 9 "img" noFallbackOptions).1.success = false ∧
    ∃ e, (autoRemoveBackgroundPeople failWorld 9 "img" noFallbackOptions).1.error = some e ∧
      e ≠ "" :=
  ⟨rfl, autoRemoveBackgroundPeople_failure_has_error failWorld 9 "img" noFallbackOptions rfl⟩

theorem autoRemoveBackgroundPeople_fallbackPath_witness :
    detectPeopleInImage fallbackWorld.samCall = .error "Failed to detect people: boom" ∧
    ((autoRemoveBackgroundPeople fallbackWorld 5 "img" emptyOptions).1.details.peopleDetected =
      1 ∧
    (autoRemoveBackgroundPeople fallbackWorld 5 "img" emptyOptions).1.details.modelUsed =
      "SAM-2/YOLO") :=
  ⟨rfl,
   autoRemoveBackgroundPeople_fallbackPath fallbackWorld 5 "img" emptyOptions
     "Failed to detect people: boom" fallbackMask 1024 1024 rfl rfl
     detectPeopleWithYOLO_fallbackWorld (by decide)⟩
